import Mathlib

/-!
Shallow embedding of the golem-unlimited provider docker backend:
gu-provider/src/dockerman.rs together with the message and error types of
gu-envman-api/src/lib.rs.  Backend (docker daemon), filesystem and network
effects are supplied as oracle inputs; every executed backend call is
recorded in an explicit trace so that claims about commands never running
are statements about that trace.
-/

namespace Dockerman

/-- Decidable equality for Except values, used to evaluate the embedding on
concrete inputs. -/
instance exceptDecEq {ε α : Type} [DecidableEq ε] [DecidableEq α] :
    DecidableEq (Except ε α) := fun x y =>
  match x, y with
  | .ok a, .ok b =>
    if h : a = b then .isTrue (by rw [h])
    else .isFalse (by intro hc; cases hc; exact h rfl)
  | .error a, .error b =>
    if h : a = b then .isTrue (by rw [h])
    else .isFalse (by intro hc; cases hc; exact h rfl)
  | .ok _, .error _ => .isFalse (by intro hc; cases hc)
  | .error _, .ok _ => .isFalse (by intro hc; cases hc)

/-- Resource format of file transfer commands (gu_model envman ResourceFormat,
used by dockerman.rs in the DownloadFile and UploadFile arms). -/
inductive ResourceFormat
  | Raw
  | Tar
deriving DecidableEq

/-- Command variants of the session update protocol.  Modelled from the spec
section 3 and the match arms of run_command in dockerman.rs (the defining
crate gu_model envman is not among the sampled sources; gu-envman-api has the
same shape minus the Open, Close and Wait variants). -/
inductive Command
  | Open
  | Close
  | Exec (executable : String) (args : List String)
  | Start (executable : String) (args : List String)
  | Stop (child_id : String)
  | Wait
  | DownloadFile (uri : String) (file_path : String) (format : ResourceFormat)
  | UploadFile (uri : String) (file_path : String) (format : ResourceFormat)
  | AddTags (tags : List String)
  | DelTags (tags : List String)
deriving DecidableEq

/-- Error enum of gu-envman-api/src/lib.rs (named Error in the source). -/
inductive EnvError
  | Error (msg : String)
  | IoError (msg : String)
  | NoSuchSession (msg : String)
  | NoSuchChild (msg : String)
  | UnknownEnv (env_id : String)
deriving DecidableEq

/-- Display impl for Error from gu-envman-api/src/lib.rs lines 38 to 49. -/
def EnvError.toString : EnvError → String
  | .Error msg => "error: " ++ msg
  | .IoError msg => "IO error: " ++ msg
  | .NoSuchSession msg => "session not found: " ++ msg
  | .NoSuchChild msg => "child not found: " ++ msg
  | .UnknownEnv env_id => "unknown exec environment: " ++ env_id

/-- Volume bind specification.  Modelled from the spec: gu_model dockerman
VolumeDef is not among the sampled sources; dockerman.rs only calls
source_dir and target_dir, both optional. -/
structure VolumeDef where
  source_dir : Option String
  target_dir : Option String
deriving DecidableEq

/-- Modelled from the spec: the Workspace type of gu-provider workspace.rs is
not among the sampled sources.  Per spec sections 3 and 4.1 a Workspace owns
a human name, a set of string tags (duplicates collapse, order irrelevant)
and an ordered volume list.  The tag set is represented as a duplicate-free
list; set statements about it go through List.toFinset. -/
structure Workspace where
  name : String
  tags : List String
  volumes : List VolumeDef
deriving DecidableEq

/-- Insert one tag into the tag collection unless already present, the
representation of set insertion on the duplicate-free list. -/
def tagInsert (l : List String) (a : String) : List String :=
  if a ∈ l then l else l ++ [a]

/-- Modelled from the spec: add_tags is a set union on the tag set (adding a
present tag is a no-op). -/
def Workspace.add_tags (w : Workspace) (ts : List String) : Workspace :=
  { w with tags := ts.foldl tagInsert w.tags }

/-- Modelled from the spec: remove_tags is a set difference on the tag set
(removing an absent tag is a no-op, never an error). -/
def Workspace.remove_tags (w : Workspace) (ts : List String) : Workspace :=
  { w with tags := w.tags.filter (fun t => decide (t ∉ ts)) }

/-- Modelled from the spec: add_volume appends one bind specification. -/
def Workspace.add_volume (w : Workspace) (v : VolumeDef) : Workspace :=
  { w with volumes := w.volumes ++ [v] }

/-- Session status enum.  Modelled from the spec section 3 (gu_net rpc peer
PeerSessionStatus is not among the sampled sources; dockerman.rs only ever
names CREATED). -/
inductive PeerSessionStatus
  | CREATED
  | RUNNING
  | STOPPED
  | DESTROYED
deriving DecidableEq

/-- Common session info projection.  Modelled from the spec section 6
(gu_net rpc peer PeerSessionInfo is not among the sampled sources). -/
structure PeerSessionInfo where
  id : String
  name : String
  status : PeerSessionStatus
  tags : List String
  note : Option String
  processes : List String
deriving DecidableEq

/-- One deployment of the docker backend: DockerSession of dockerman.rs.
The container handle is abstracted to the container id string. -/
structure DockerSession where
  workspace : Workspace
  containerId : String
  status : PeerSessionStatus
deriving DecidableEq

/-- Deterministic rendering of a tag collection, standing for the Rust Debug
formatting of the tag collection inside the AddTags and DelTags result
messages (the concrete Debug layout of the missing collection type is
unspecified, so the model renders the representation list). -/
def renderTags (tags : List String) : String :=
  ToString.toString tags

/-- IntoDeployInfo impl for DockerSession, dockerman.rs lines 213 to 224. -/
def DockerSession.convert (s : DockerSession) (id : String) : PeerSessionInfo :=
  { id := id
    name := s.workspace.name
    status := s.status
    tags := s.workspace.tags
    note := none
    processes := [] }

/-- Modelled from the spec: the DeployManager type of gu-provider
deployment.rs is not among the sampled sources.  Per spec section 4.2 it is
an in-memory registry from session id to deployment state. -/
structure DeployManager where
  deploys : List (String × DockerSession)
deriving DecidableEq

/-- Modelled from the spec: existence probe of the Deployment Store. -/
def DeployManager.contains_deploy (m : DeployManager) (id : String) : Bool :=
  m.deploys.any (fun p => p.1 = id)

/-- Modelled from the spec: lookup that fails with NoSuchSession. -/
def DeployManager.deploy_mut (m : DeployManager) (id : String) :
    Except EnvError DockerSession :=
  match m.deploys.find? (fun p => p.1 = id) with
  | some p => .ok p.2
  | none => .error (.NoSuchSession id)

/-- Replace the deployment stored under an id, modelling in-place mutation
through the mutable reference returned by deploy_mut. -/
def DeployManager.update_deploy (m : DeployManager) (id : String)
    (d : DockerSession) : DeployManager :=
  ⟨m.deploys.map (fun p => if p.1 = id then (id, d) else p)⟩

/-- Modelled from the spec: insert fails only on a duplicate id; dockerman.rs
ignores that failure, so a duplicate insert leaves the store unchanged. -/
def DeployManager.insert_deploy (m : DeployManager) (id : String)
    (d : DockerSession) : DeployManager :=
  if m.contains_deploy id then m else ⟨m.deploys ++ [(id, d)]⟩

/-- Modelled from the spec: list_info maps every live deployment through its
info projection. -/
def DeployManager.deploys_info (m : DeployManager) : List PeerSessionInfo :=
  m.deploys.map (fun p => p.2.convert p.1)

/-- Docker backend error kinds relevant to container delete,
async_docker ErrorKind as matched by dockerman.rs lines 237 to 246. -/
inductive DockerErrorKind
  | DockerApi (status : Nat)
  | Other
deriving DecidableEq

/-- Observable backend effects.  Every call the code makes against the
docker daemon, the source http stream or the destination http endpoint is
recorded as one of these operations. -/
inductive BackendOp
  | start (containerId : String)
  | stop (containerId : String)
  | wait (containerId : String)
  | exec (containerId : String) (argv : List String)
  | fileInfo (containerId : String) (path : String)
  | download (url : String)
  | archivePut (containerId : String) (path : String)
  | archiveGet (containerId : String) (path : String)
  | httpPut (url : String)
  | delete (containerId : String)
deriving DecidableEq

/-- Oracle for all external effects: each field gives the outcome the
environment would produce for the corresponding backend call.  exec returns
the produced output chunks (none stands for a chunk that is not valid utf8)
and an optional terminating stream error; httpPut returns whether the
response status is a success plus the status text. -/
structure Backend where
  start : String → Except String Unit
  stop : String → Except String Unit
  wait : String → Except String Unit
  exec : String → List String → List (Option String) × Option String
  fileInfo : String → String → Except String (Option Bool)
  download : String → Except String (List String)
  archivePut : String → String → List String → Except String Unit
  archiveGet : String → String → Except String (List String)
  httpPut : String → List String → Except String (Bool × String)
  delete : String → Except DockerErrorKind Unit

/-- Model of PathBuf file_name: the last nonempty component of the path,
none when the path has no component or ends in a parent or current dir
reference. -/
def pathFileName (p : String) : Option String :=
  match ((p.splitOn "/").filter (fun c => c ≠ "")).getLast? with
  | some c => if c = ".." ∨ c = "." then none else some c
  | none => none

/-- Model of PathBuf pop: drop the last component of the path. -/
def pathPop (p : String) : String :=
  let comps := ((p.splitOn "/").filter (fun c => c ≠ "")).dropLast
  (if p.startsWith "/" then "/" else "") ++ String.intercalate "/" comps

/-- Modelled from the spec: provision tarred_download_stream wraps downloaded
bytes as a minimal one-entry tar archive whose sole entry carries the given
file name (provision.rs is not among the sampled sources; the archive
container format is abstracted as a marker chunk before the data chunks). -/
def tarSingle (name : String) (chunks : List String) : List String :=
  ("tar-entry:" ++ name) :: chunks

/-- Modelled from the spec: provision untar_single_file_stream unwraps a
one-entry archive and emits only the bytes of the contained file. -/
def untarSingle (chunks : List String) : Except String (List String) :=
  match chunks with
  | entry :: rest =>
    if entry.startsWith "tar-entry:" then .ok rest
    else .error "not a single file archive"
  | [] => .error "not a single file archive"

/-- DockerSession do_open, dockerman.rs lines 51 to 56: start the container,
map success to OK and any backend error to its display string. -/
def DockerSession.do_open (s : DockerSession) (b : Backend) :
    Except String String × List BackendOp :=
  (match b.start s.containerId with
   | .ok _ => .ok "OK"
   | .error e => .error e,
   [.start s.containerId])

/-- DockerSession do_close, dockerman.rs lines 58 to 63. -/
def DockerSession.do_close (s : DockerSession) (b : Backend) :
    Except String String × List BackendOp :=
  (match b.stop s.containerId with
   | .ok _ => .ok "OK"
   | .error e => .error e,
   [.stop s.containerId])

/-- DockerSession do_start, dockerman.rs lines 65 to 70: also starts the
container. -/
def DockerSession.do_start (s : DockerSession) (b : Backend) :
    Except String String × List BackendOp :=
  (match b.start s.containerId with
   | .ok _ => .ok "OK"
   | .error e => .error e,
   [.start s.containerId])

/-- DockerSession do_wait, dockerman.rs lines 72 to 77. -/
def DockerSession.do_wait (s : DockerSession) (b : Backend) :
    Except String String × List BackendOp :=
  (match b.wait s.containerId with
   | .ok _ => .ok "OK"
   | .error e => .error e,
   [.wait s.containerId])

/-- DockerSession do_exec, dockerman.rs lines 79 to 107: the executable is
prepended to the argument vector, the output chunks are folded into one
string with undecodable chunks silently dropped, and a stream error aborts
the fold with that error. -/
def DockerSession.do_exec (s : DockerSession) (b : Backend)
    (executable : String) (args : List String) :
    Except String String × List BackendOp :=
  let argv := executable :: args
  let r := b.exec s.containerId argv
  (match r.2 with
   | some e => .error e
   | none => .ok (String.join (r.1.filterMap id)),
   [.exec s.containerId argv])

/-- DockerSession do_download, dockerman.rs lines 109 to 177.  For the Raw
format the file_info precondition and the file name check are sequenced
before the source download begins, the downloaded bytes are wrapped as a
one-entry archive and the archive destination is the parent directory of
the target path; for the Tar format the http stream is passed through
unmodified to the full target path and the file_info future is dropped
unpolled.  The bounded channel bridge is modelled synchronously: a stream
failure cancels the archive side, so no archive write happens after a
failed stream. -/
def DockerSession.do_download (s : DockerSession) (b : Backend)
    (url : String) (file_path : String) (format : ResourceFormat) :
    Except String String × List BackendOp :=
  match format with
  | .Raw =>
    match b.fileInfo s.containerId file_path with
    | .error e => (.error e, [.fileInfo s.containerId file_path])
    | .ok info =>
      if (info.map (fun c => c)).getD false then
        (.error ("Cannot save file into " ++ file_path ++
                 " path. There is a directory"),
         [.fileInfo s.containerId file_path])
      else
        match pathFileName file_path with
        | none => (.error "Invalid filename", [.fileInfo s.containerId file_path])
        | some name =>
          match b.download url with
          | .error e =>
            (.error e, [.fileInfo s.containerId file_path, .download url])
          | .ok chunks =>
            match b.archivePut s.containerId (pathPop file_path)
                (tarSingle name chunks) with
            | .ok _ =>
              (.ok "OK",
               [.fileInfo s.containerId file_path, .download url,
                .archivePut s.containerId (pathPop file_path)])
            | .error e =>
              (.error e,
               [.fileInfo s.containerId file_path, .download url,
                .archivePut s.containerId (pathPop file_path)])
  | .Tar =>
    match b.download url with
    | .error e => (.error e, [.download url])
    | .ok chunks =>
      match b.archivePut s.containerId file_path chunks with
      | .ok _ =>
        (.ok "OK", [.download url, .archivePut s.containerId file_path])
      | .error e =>
        (.error e, [.download url, .archivePut s.containerId file_path])

/-- DockerSession do_upload, dockerman.rs lines 179 to 210: read the path
out of the container as an archive stream, for the Raw format unwrap the
one-entry archive, put the bytes to the destination url and report the
outcome from the response status (the success message uses the Rust Debug
rendering of the url, which quotes it). -/
def DockerSession.do_upload (s : DockerSession) (b : Backend)
    (url : String) (file_path : String) (format : ResourceFormat) :
    Except String String × List BackendOp :=
  match b.archiveGet s.containerId file_path with
  | .error e => (.error e, [.archiveGet s.containerId file_path])
  | .ok chunks =>
    let dataRes : Except String (List String) :=
      match format with
      | .Raw => untarSingle chunks
      | .Tar => .ok chunks
    match dataRes with
    | .error e => (.error e, [.archiveGet s.containerId file_path])
    | .ok data =>
      match b.httpPut url data with
      | .error e =>
        (.error e, [.archiveGet s.containerId file_path, .httpPut url])
      | .ok st =>
        if st.1 then
          (.ok ("\"" ++ url ++ "\" file uploaded"),
           [.archiveGet s.containerId file_path, .httpPut url])
        else
          (.error ("Unsuccessful file upload: " ++ st.2),
           [.archiveGet s.containerId file_path, .httpPut url])

/-- Destroy impl for DockerSession, dockerman.rs lines 226 to 255: delete
the container, treating an http 404 from the docker api as success; any
other delete error is fatal; on success clear the workspace directory,
mapping a clear failure to IoError.  The delete outcome and the filesystem
outcome are oracle inputs. -/
def DockerSession.destroy (deleteRes : Except DockerErrorKind Unit)
    (clearRes : Except String Unit) : Except EnvError Unit :=
  match deleteRes with
  | .ok _ => clearRes.mapError EnvError.IoError
  | .error (.DockerApi status) =>
    if status = 404 then clearRes.mapError EnvError.IoError
    else .error (.Error "docker error")
  | .error .Other => .error (.Error "docker error")

/-- The DockerMan actor state, dockerman.rs lines 27 to 31.  The docker api
handle only matters through presence, so it is Option Unit; the workspaces
manager is replaced by the fresh name oracle of handleCreateSession. -/
structure DockerMan where
  docker_api : Option Unit
  deploys : DeployManager
deriving DecidableEq

/-- SessionUpdate message of gu-envman-api/src/lib.rs lines 85 to 90. -/
structure SessionUpdate where
  session_id : String
  commands : List Command
deriving DecidableEq

/-- Image reference of gu-envman-api/src/lib.rs lines 58 to 63. -/
structure Image where
  url : String
  hash : String
deriving DecidableEq

/-- Docker creation options.  Modelled from the spec: gu_model dockerman
CreateOptions is not among the sampled sources; dockerman.rs only reads its
volume list. -/
structure CreateOptions where
  volumes : List VolumeDef
deriving DecidableEq

/-- CreateSession message, gu-envman-api/src/lib.rs lines 65 to 74 extended
with the backend options parameter used by dockerman.rs. -/
structure CreateSession where
  env_type : String
  image : Image
  name : String
  tags : List String
  note : Option String
  options : CreateOptions
deriving DecidableEq

/-- Modelled from the spec: WorkspacesManager workspace() allocates a fresh
uniquely named Workspace with no tags and no volumes; the fresh name is an
oracle input of the creation handler. -/
def WorkspacesManager.workspace (freshName : String) : Workspace :=
  { name := freshName, tags := [], volumes := [] }

/-- One step of the binds_and_workspace volume fold: a volume definition
with both a source and a target directory is recorded on the workspace and
emits the bind string source colon target; any other definition is
skipped. -/
def bindsStep (acc : List String × Workspace) (vol : VolumeDef) :
    List String × Workspace :=
  match vol.source_dir, vol.target_dir with
  | some s, some t => (acc.1 ++ [s ++ ":" ++ t], acc.2.add_volume vol)
  | _, _ => acc

/-- DockerMan binds_and_workspace, dockerman.rs lines 284 to 301. -/
def binds_and_workspace (freshWorkspace : Workspace) (msg : CreateSession) :
    List String × Workspace :=
  msg.options.volumes.foldl bindsStep ([], freshWorkspace)

/-- Outcome of a request handler: a reply value, a typed error reply, or a
process abort (the Rust panic raised by expect). -/
inductive HandlerOutcome (ε α : Type)
  | ok (value : α)
  | err (e : ε)
  | aborted (msg : String)
deriving DecidableEq

/-- CreateSession handler of DockerMan, dockerman.rs lines 325 to 377.
Directory creation and the combined image pull plus container create are
oracle inputs; the expect call on create_dirs becomes an aborted outcome.
After the container is created the docker api presence is checked again
before the deployment is inserted, exactly as in the source. -/
def DockerMan.handleCreateSession (man : DockerMan) (msg : CreateSession)
    (freshName : String) (createDirsRes : Except String Unit)
    (pullAndCreateRes : Except String String) :
    HandlerOutcome EnvError String × DockerMan :=
  match man.docker_api with
  | none => (.err (.UnknownEnv msg.env_type), man)
  | some _ =>
    let bw := binds_and_workspace (WorkspacesManager.workspace freshName) msg
    match createDirsRes with
    | .error _ => (.aborted "Creating session dirs failed", man)
    | .ok _ =>
      match pullAndCreateRes with
      | .error e => (.err (.IoError e), man)
      | .ok id =>
        match man.docker_api with
        | some _ =>
          let deploy : DockerSession :=
            { workspace := bw.2, containerId := id, status := .CREATED }
          (.ok id, { man with deploys := man.deploys.insert_deploy id deploy })
        | none => (.err (.UnknownEnv msg.env_type), man)

/-- DockerMan run_for_deployment, dockerman.rs lines 380 to 396: look the
deployment up, failing with the display string of the lookup error, and
otherwise run the given session operation (none of the session operations
mutate the stored deployment). -/
def run_for_deployment (man : DockerMan) (deployment_id : String)
    (f : DockerSession → Except String String × List BackendOp) :
    Except String String × DockerMan × List BackendOp :=
  match man.deploys.deploy_mut deployment_id with
  | .error e => (.error e.toString, man, [])
  | .ok d =>
    let r := f d
    (r.1, man, r.2)

/-- run_command, dockerman.rs lines 398 to 460: fail immediately when the
docker api is not initialized, otherwise dispatch on the command variant.
Stop is a stub returning a fixed success string without touching anything;
AddTags and DelTags mutate the stored workspace tag set in place. -/
def run_command (b : Backend) (man : DockerMan) (session_id : String)
    (c : Command) : Except String String × DockerMan × List BackendOp :=
  if man.docker_api.isNone then
    (.error "Docker API not initialized properly", man, [])
  else
    match c with
    | .Open => run_for_deployment man session_id (fun d => d.do_open b)
    | .Close => run_for_deployment man session_id (fun d => d.do_close b)
    | .Exec executable args =>
      run_for_deployment man session_id (fun d => d.do_exec b executable args)
    | .Start _ _ => run_for_deployment man session_id (fun d => d.do_start b)
    | .Stop _ => (.ok "Stop mock", man, [])
    | .Wait => run_for_deployment man session_id (fun d => d.do_wait b)
    | .DownloadFile uri file_path format =>
      run_for_deployment man session_id
        (fun d => d.do_download b uri file_path format)
    | .UploadFile uri file_path format =>
      run_for_deployment man session_id
        (fun d => d.do_upload b uri file_path format)
    | .AddTags tags =>
      match man.deploys.deploy_mut session_id with
      | .ok session =>
        let ws := session.workspace.add_tags tags
        let deploys2 :=
          man.deploys.update_deploy session_id { session with workspace := ws }
        (.ok ("tags inserted. Current tags are: " ++ renderTags ws.tags),
         { man with deploys := deploys2 },
         [])
      | .error e => (.error e.toString, man, [])
    | .DelTags tags =>
      match man.deploys.deploy_mut session_id with
      | .ok session =>
        let ws := session.workspace.remove_tags tags
        let deploys2 :=
          man.deploys.update_deploy session_id { session with workspace := ws }
        (.ok ("tags removed. Current tags are: " ++ renderTags ws.tags),
         { man with deploys := deploys2 },
         [])
      | .error e => (.error e.toString, man, [])

/-- Accumulator recursion underlying run_commands: thread the state, append
each output to the accumulated list as the command completes, and stop at
the first failure returning the accumulated list as the error value. -/
def run_commands_aux (b : Backend) (session_id : String) :
    DockerMan → List String → List BackendOp → List Command →
    Except (List String) (List String) × DockerMan × List BackendOp
  | man, acc, tr, [] => (.ok acc, man, tr)
  | man, acc, tr, c :: cs =>
    match run_command b man session_id c with
    | (.ok s, man2, t) =>
      run_commands_aux b session_id man2 (acc ++ [s]) (tr ++ t) cs
    | (.error s, man2, t) => (.error (acc ++ [s]), man2, tr ++ t)

/-- run_commands, dockerman.rs lines 462 to 485: fold the command list over
a future chain seeded with the empty output vector; the and_then chaining
makes every later command run only after all earlier ones succeeded. -/
def run_commands (b : Backend) (man : DockerMan) (session_id : String)
    (commands : List Command) :
    Except (List String) (List String) × DockerMan × List BackendOp :=
  run_commands_aux b session_id man [] [] commands

/-- SessionUpdate handler of DockerMan, dockerman.rs lines 487 to 500: when
the session id is absent reply at once with the display string of
NoSuchSession as a one element error list, otherwise run the commands. -/
def DockerMan.handleSessionUpdate (b : Backend) (man : DockerMan)
    (msg : SessionUpdate) :
    Except (List String) (List String) × DockerMan × List BackendOp :=
  if !man.deploys.contains_deploy msg.session_id then
    (.error [(EnvError.NoSuchSession msg.session_id).toString], man, [])
  else
    run_commands b man msg.session_id msg.commands

/-- GetSessions handler of DockerMan, dockerman.rs lines 502 to 512: always
replies Ok with the info projection of every live deployment. -/
def DockerMan.handleGetSessions (man : DockerMan) :
    Except Unit (List PeerSessionInfo) :=
  .ok man.deploys.deploys_info

/-- Reference run of a command list in which every command succeeds: returns
the outputs, the final state and the trace, or none when some command in
the list fails.  Used to state the truncation behaviour of run_commands. -/
def run_all_ok (b : Backend) (session_id : String) :
    DockerMan → List Command →
    Option (List String × DockerMan × List BackendOp)
  | man, [] => some ([], man, [])
  | man, c :: cs =>
    match run_command b man session_id c with
    | (.ok s, man2, t) =>
      (run_all_ok b session_id man2 cs).map
        (fun r => (s :: r.1, r.2.1, t ++ r.2.2))
    | (.error _, _, _) => none

/-- Sample backend oracle: container start and wait succeed, container stop
fails, the probed path is an existing directory, all transfers succeed. -/
def b0 : Backend :=
  { start := fun _ => .ok ()
    stop := fun _ => .error "stopfail"
    wait := fun _ => .ok ()
    exec := fun _ _ => ([some "out"], none)
    fileInfo := fun _ _ => .ok (some true)
    download := fun _ => .ok ["data"]
    archivePut := fun _ _ _ => .ok ()
    archiveGet := fun _ _ => .ok ["tar-entry:f", "data"]
    httpPut := fun _ _ => .ok (true, "200 OK")
    delete := fun _ => .ok () }

/-- Sample deployment with an empty tag set. -/
def sess0 : DockerSession :=
  { workspace := { name := "w0", tags := [], volumes := [] }
    containerId := "c1"
    status := .CREATED }

/-- Sample state: initialized docker api, one session under id s1. -/
def man0 : DockerMan :=
  { docker_api := some (), deploys := ⟨[("s1", sess0)]⟩ }

/-- Sample state with no deployments. -/
def manEmpty : DockerMan :=
  { docker_api := some (), deploys := ⟨[]⟩ }

/-- Sample state with an uninitialized docker api. -/
def manNone : DockerMan :=
  { docker_api := none, deploys := ⟨[("s1", sess0)]⟩ }

/-- Sample deployment whose workspace already carries the tag x. -/
def sessX : DockerSession :=
  { workspace := { name := "w0", tags := ["x"], volumes := [] }
    containerId := "c1"
    status := .CREATED }

/-- Sample state holding the tagged deployment under id s1. -/
def manX : DockerMan :=
  { docker_api := some (), deploys := ⟨[("s1", sessX)]⟩ }

/-- Sample creation request carrying a name, tags and a note. -/
def msg0 : CreateSession :=
  { env_type := "docker"
    image := { url := "registry/x:latest", hash := "h" }
    name := "requested-name"
    tags := ["requested-tag"]
    note := some "requested-note"
    options := { volumes := [] } }


/-- When a prefix of the command list runs with every command succeeding,
the accumulator recursion threads it through, appending outputs and
traces. -/
theorem run_commands_aux_ok (b : Backend) (sid : String) :
    ∀ (cs : List Command) (man man2 : DockerMan) (outs : List String)
      (tr2 : List BackendOp) (acc : List String) (tr : List BackendOp),
      run_all_ok b sid man cs = some (outs, man2, tr2) →
      run_commands_aux b sid man acc tr cs =
        (.ok (acc ++ outs), man2, tr ++ tr2) := by
  intro cs
  induction cs with
  | nil =>
    intro man man2 outs tr2 acc tr h
    simp [run_all_ok] at h
    obtain ⟨h1, h2, h3⟩ := h
    subst h1; subst h2; subst h3
    simp [run_commands_aux]
  | cons c cs ih =>
    intro man man2 outs tr2 acc tr h
    rcases hrc : run_command b man sid c with ⟨r, man1, t⟩
    cases r with
    | ok sOut =>
      rw [run_all_ok, hrc] at h
      simp only [Option.map_eq_some'] at h
      obtain ⟨⟨outs1, man2x, tr2x⟩, hrec, heq⟩ := h
      have hA := congrArg Prod.fst heq
      have hB := congrArg (fun z : List String × DockerMan × List BackendOp => z.2.1) heq
      have hC := congrArg (fun z : List String × DockerMan × List BackendOp => z.2.2) heq
      simp only at hA hB hC
      simp only [run_commands_aux, hrc]
      rw [ih man1 man2 outs1 tr2x (acc ++ [sOut]) (tr ++ t) (by rw [hrec, hB])]
      simp [← hA, ← hC]
    | error e =>
      rw [run_all_ok, hrc] at h
      simp at h

/-- When every command of a prefix succeeds and the next command fails, the
accumulator recursion stops there: the returned list is the outputs so far
plus the failure text, the state and trace are those at the failure, and
the commands after the failure contribute nothing. -/
theorem run_commands_aux_fail (b : Backend) (sid : String) :
    ∀ (cs1 : List Command) (man man1 man2 : DockerMan) (outs : List String)
      (tr1 t2 : List BackendOp) (c : Command) (e : String)
      (cs2 : List Command) (acc : List String) (tr : List BackendOp),
      run_all_ok b sid man cs1 = some (outs, man1, tr1) →
      run_command b man1 sid c = (.error e, man2, t2) →
      run_commands_aux b sid man acc tr (cs1 ++ c :: cs2) =
        (.error (acc ++ outs ++ [e]), man2, tr ++ tr1 ++ t2) := by
  intro cs1
  induction cs1 with
  | nil =>
    intro man man1 man2 outs tr1 t2 c e cs2 acc tr h hf
    simp [run_all_ok] at h
    obtain ⟨h1, h2, h3⟩ := h
    subst h1; subst h2; subst h3
    simp only [List.nil_append]
    rw [run_commands_aux, hf]
    simp
  | cons c0 cs ih =>
    intro man man1 man2 outs tr1 t2 c e cs2 acc tr h hf
    rcases hrc : run_command b man sid c0 with ⟨r, manA, t⟩
    cases r with
    | ok sOut =>
      rw [run_all_ok, hrc] at h
      simp only [Option.map_eq_some'] at h
      obtain ⟨⟨outs1, man2x, tr2x⟩, hrec, heq⟩ := h
      have hA := congrArg Prod.fst heq
      have hB := congrArg (fun z : List String × DockerMan × List BackendOp => z.2.1) heq
      have hC := congrArg (fun z : List String × DockerMan × List BackendOp => z.2.2) heq
      simp only at hA hB hC
      rw [List.cons_append]
      simp only [run_commands_aux, hrc]
      rw [ih manA man1 man2 outs1 tr2x t2 c e cs2 (acc ++ [sOut]) (tr ++ t)
            (by rw [hrec, hB]) hf]
      simp [← hA, ← hC]
    | error e0 =>
      rw [run_all_ok, hrc] at h
      simp at h

/-- A fully successful run produces one output per command. -/
theorem run_all_ok_length (b : Backend) (sid : String) :
    ∀ (cs : List Command) (man man2 : DockerMan) (outs : List String)
      (tr2 : List BackendOp),
      run_all_ok b sid man cs = some (outs, man2, tr2) →
      outs.length = cs.length := by
  intro cs
  induction cs with
  | nil =>
    intro man man2 outs tr2 h
    simp [run_all_ok] at h
    simp [h.1]
  | cons c cs ih =>
    intro man man2 outs tr2 h
    rcases hrc : run_command b man sid c with ⟨r, man1, t⟩
    cases r with
    | ok sOut =>
      rw [run_all_ok, hrc] at h
      simp only [Option.map_eq_some'] at h
      obtain ⟨⟨outs1, man2x, tr2x⟩, hrec, heq⟩ := h
      have hA := congrArg Prod.fst heq
      simp only at hA
      rw [← hA]
      simp [ih man1 man2x outs1 tr2x hrec]
    | error e =>
      rw [run_all_ok, hrc] at h
      simp at h

/-- C1: for every session id present in the Deployment Store and every
ordered command list of a SessionUpdate, commands execute strictly in
order with each output appended as it completes: when every command
succeeds the handler returns Ok with exactly one output per command, and
when some command fails after a fully successful prefix the handler stops
there, returning as the error exactly the outputs of the successful prefix
plus the failure text (length equal to the index of the first failure),
with the state and the backend trace ending at the failing command, so the
commands after the first failure are never executed. -/
theorem run_commands_truncation (b : Backend) (man : DockerMan) (sid : String)
    (hs : man.deploys.contains_deploy sid = true) :
    (∀ cs outs man2 tr,
        run_all_ok b sid man cs = some (outs, man2, tr) →
        DockerMan.handleSessionUpdate b man ⟨sid, cs⟩ = (.ok outs, man2, tr) ∧
          outs.length = cs.length) ∧
    (∀ cs1 c cs2 outs man1 tr1 e man2 t2,
        run_all_ok b sid man cs1 = some (outs, man1, tr1) →
        run_command b man1 sid c = (.error e, man2, t2) →
        DockerMan.handleSessionUpdate b man ⟨sid, cs1 ++ c :: cs2⟩ =
            (.error (outs ++ [e]), man2, tr1 ++ t2) ∧
          (outs ++ [e]).length = cs1.length + 1) := by
  constructor
  · intro cs outs man2 tr h
    refine ⟨?_, run_all_ok_length b sid cs man man2 outs tr h⟩
    have haux := run_commands_aux_ok b sid cs man man2 outs tr [] [] h
    simp only [List.nil_append] at haux
    simp [DockerMan.handleSessionUpdate, hs, run_commands, haux]
  · intro cs1 c cs2 outs man1 tr1 e man2 t2 h hf
    have hlen := run_all_ok_length b sid cs1 man man1 outs tr1 h
    have haux := run_commands_aux_fail b sid cs1 man man1 man2 outs tr1 t2
        c e cs2 [] [] h hf
    simp only [List.nil_append] at haux
    constructor
    · simp [DockerMan.handleSessionUpdate, hs, run_commands, haux]
    · simp [hlen]

/-- Witness for C1 at a concrete backend and store: a two command list in
which both commands succeed yields Ok with two outputs, and a three
command list whose second command fails yields the two element error list
with a trace that stops at the failing command. -/
theorem run_commands_truncation_witness :
    DockerMan.handleSessionUpdate b0 man0 ⟨"s1", [Command.Open, Command.Wait]⟩ =
        (.ok ["OK", "OK"], man0, [BackendOp.start "c1", BackendOp.wait "c1"]) ∧
    DockerMan.handleSessionUpdate b0 man0
        ⟨"s1", [Command.Open, Command.Close, Command.Wait]⟩ =
        (.error ["OK", "stopfail"], man0,
         [BackendOp.start "c1", BackendOp.stop "c1"]) :=
  ⟨((run_commands_truncation b0 man0 "s1" (by decide)).1
      [Command.Open, Command.Wait] ["OK", "OK"] man0
      [BackendOp.start "c1", BackendOp.wait "c1"] (by decide)).1,
   ((run_commands_truncation b0 man0 "s1" (by decide)).2
      [Command.Open] Command.Close [Command.Wait] ["OK"] man0
      [BackendOp.start "c1"] "stopfail" man0 [BackendOp.stop "c1"]
      (by decide) (by decide)).1⟩


/-- C2: for every session id absent from the Deployment Store and every
command list, the SessionUpdate handler fails the whole request at once
with the single element error list containing the NoSuchSession display
string, leaves the state untouched and performs no backend call, so zero
commands execute. -/
theorem session_update_no_such_session (b : Backend) (man : DockerMan)
    (sid : String) (cmds : List Command)
    (h : man.deploys.contains_deploy sid = false) :
    DockerMan.handleSessionUpdate b man ⟨sid, cmds⟩ =
      (.error ["session not found: " ++ sid], man, []) := by
  simp [DockerMan.handleSessionUpdate, h, EnvError.toString]

/-- Witness for C2: an update against an empty store with a nonempty
command list. -/
theorem session_update_no_such_session_witness :
    DockerMan.handleSessionUpdate b0 manEmpty
        ⟨"ghost", [Command.Open, Command.Wait]⟩ =
      (.error ["session not found: ghost"], manEmpty, []) :=
  session_update_no_such_session b0 manEmpty "ghost"
    [Command.Open, Command.Wait] (by decide)

/-- C3: while the docker api handle is absent, the initialization check
fires before any command executes: a SessionUpdate on an existing session
with a nonempty command list fails with the single element list holding
the adapter error, the state is untouched and the backend trace is empty,
and uniformly every single command evaluates to that same adapter error
without executing. -/
theorem uninitialized_adapter_fails (b : Backend) (man : DockerMan)
    (sid : String) (cmds : List Command) (hapi : man.docker_api = none)
    (hs : man.deploys.contains_deploy sid = true) (hne : cmds ≠ []) :
    DockerMan.handleSessionUpdate b man ⟨sid, cmds⟩ =
      (.error ["Docker API not initialized properly"], man, []) ∧
    ∀ c, run_command b man sid c =
      (.error "Docker API not initialized properly", man, []) := by
  have hrc : ∀ c, run_command b man sid c =
      (.error "Docker API not initialized properly", man, []) := by
    intro c
    simp [run_command, hapi]
  refine ⟨?_, hrc⟩
  cases cmds with
  | nil => exact absurd rfl hne
  | cons c cs =>
    simp [DockerMan.handleSessionUpdate, hs, run_commands,
          run_commands_aux, hrc c]

/-- Witness for C3: the sample store with the docker api set to none. -/
theorem uninitialized_adapter_fails_witness :
    DockerMan.handleSessionUpdate b0 manNone ⟨"s1", [Command.Open]⟩ =
      (.error ["Docker API not initialized properly"], manNone, []) ∧
    ∀ c, run_command b0 manNone "s1" c =
      (.error "Docker API not initialized properly", manNone, []) :=
  uninitialized_adapter_fails b0 manNone "s1" [Command.Open] rfl
    (by decide) (by decide)

/-- C4: deployment teardown is idempotent with respect to the backend
resource: a delete that fails with the docker api status 404 behaves
exactly like a successful delete, proceeding to clear the workspace
directory (an IO failure there surfacing as IoError), while a delete
failing with any other status or any non api error kind is fatal and
surfaces as the catch-all Error. -/
theorem destroy_treats_not_found_as_success (clearRes : Except String Unit)
    (status : Nat) (h : status ≠ 404) :
    DockerSession.destroy (.error (.DockerApi 404)) clearRes =
        DockerSession.destroy (.ok ()) clearRes ∧
    DockerSession.destroy (.ok ()) clearRes =
        clearRes.mapError EnvError.IoError ∧
    DockerSession.destroy (.error (.DockerApi status)) clearRes =
        .error (.Error "docker error") ∧
    DockerSession.destroy (.error .Other) clearRes =
        .error (.Error "docker error") := by
  refine ⟨rfl, rfl, ?_, rfl⟩
  simp [DockerSession.destroy, h]

/-- Witness for C4 at a successful directory clear and the status 500. -/
theorem destroy_treats_not_found_as_success_witness :
    DockerSession.destroy (.error (.DockerApi 404)) (.ok ()) =
        DockerSession.destroy (.ok ()) (.ok ()) ∧
    DockerSession.destroy (.ok ()) (.ok ()) =
        (Except.ok () : Except String Unit).mapError EnvError.IoError ∧
    DockerSession.destroy (.error (.DockerApi 500)) (.ok ()) =
        .error (.Error "docker error") ∧
    DockerSession.destroy (.error .Other) (.ok ()) =
        .error (.Error "docker error") :=
  destroy_treats_not_found_as_success (.ok ()) 500 (by decide)

/-- C5: for a Raw format download whose destination path the backend
reports as an existing directory, do_download fails with the descriptive
directory error and the backend trace holds only the file_info probe: no
download operation ever starts (no source byte is consumed) and no
archive_put is performed. -/
theorem raw_download_directory_precondition (b : Backend)
    (s : DockerSession) (url file_path : String)
    (h : b.fileInfo s.containerId file_path = .ok (some true)) :
    s.do_download b url file_path .Raw =
      (.error ("Cannot save file into " ++ file_path ++
               " path. There is a directory"),
       [BackendOp.fileInfo s.containerId file_path]) := by
  simp [DockerSession.do_download, h]

/-- Witness for C5: the sample backend reports every probed path as a
directory. -/
theorem raw_download_directory_precondition_witness :
    sess0.do_download b0 "http://host/file" "/data/out" .Raw =
      (.error ("Cannot save file into /data/out path. There is a directory"),
       [BackendOp.fileInfo "c1" "/data/out"]) :=
  raw_download_directory_precondition b0 sess0 "http://host/file"
    "/data/out" rfl


/-- C6: the Stop arm of run_command is a stub: it returns the fixed success
string Stop mock, changes no state, performs no backend call (empty
trace), and does so even when the session does not exist, so no background
process is ever signalled or terminated. -/
theorem stop_command_is_mock :
    run_command b0 man0 "s1" (Command.Stop "child-7") =
        (.ok "Stop mock", man0, []) ∧
    run_command b0 manEmpty "s1" (Command.Stop "child-7") =
        (.ok "Stop mock", manEmpty, []) :=
  ⟨rfl, rfl⟩

/-- Counterexample for C7: a successful Open on the sample session returns
OK but the stored deployment status stays CREATED, and GetSessions on the
resulting state still reports CREATED, which is not RUNNING; the claimed
transition to Running never happens. -/
theorem open_leaves_status_created :
    run_command b0 man0 "s1" Command.Open =
        (.ok "OK", man0, [BackendOp.start "c1"]) ∧
    DockerMan.handleGetSessions (run_command b0 man0 "s1" Command.Open).2.1 =
        .ok [{ id := "s1", name := "w0", status := .CREATED, tags := [],
               note := none, processes := [] }] ∧
    PeerSessionStatus.CREATED ≠ PeerSessionStatus.RUNNING := by
  refine ⟨rfl, rfl, by decide⟩

/-- The deployment lookup and run helper never changes the actor state. -/
theorem run_for_deployment_state (man : DockerMan) (id : String)
    (f : DockerSession → Except String String × List BackendOp) :
    (run_for_deployment man id f).2.1 = man := by
  unfold run_for_deployment
  rcases man.deploys.deploy_mut id with e | d <;> rfl

/-- C7 amended: the lifecycle commands Open, Close, Start and Wait never
change the stored deployment state (in particular the status field keeps
the value set at creation, whether the backend call succeeds or fails),
and GetSessions on the state after such a command reports exactly what it
reported before. -/
theorem lifecycle_commands_leave_status_unchanged (b : Backend)
    (man : DockerMan) (sid : String) (c : Command)
    (h : c = Command.Open ∨ c = Command.Close ∨ c = Command.Wait ∨
         ∃ ex args, c = Command.Start ex args) :
    (run_command b man sid c).2.1 = man ∧
    DockerMan.handleGetSessions (run_command b man sid c).2.1 =
      DockerMan.handleGetSessions man := by
  have hstate : (run_command b man sid c).2.1 = man := by
    rcases h with h | h | h | ⟨ex, args, h⟩ <;> subst h <;>
      · unfold run_command
        by_cases hn : man.docker_api.isNone <;>
          simp [hn, run_for_deployment_state]
  exact ⟨hstate, by rw [hstate]⟩

/-- Witness for C7 amended: a successful Open on the sample session. -/
theorem lifecycle_commands_leave_status_unchanged_witness :
    (run_command b0 man0 "s1" Command.Open).2.1 = man0 ∧
    DockerMan.handleGetSessions (run_command b0 man0 "s1" Command.Open).2.1 =
      DockerMan.handleGetSessions man0 :=
  lifecycle_commands_leave_status_unchanged b0 man0 "s1" Command.Open
    (Or.inl rfl)

/-- C8: when creating the workspace directory tree fails, the CreateSession
handler does not return a typed error: the expect call panics, modelled by
the aborted outcome carrying the panic message, so the process is aborted
instead of the request failing cleanly. -/
theorem create_session_dir_failure_panics :
    DockerMan.handleCreateSession manEmpty msg0 "ws-1"
        (.error "Permission denied") (.ok "c9") =
      (.aborted "Creating session dirs failed", manEmpty) :=
  rfl


/-- Inserting a tag into the duplicate-free representation is set insert. -/
theorem tagInsert_toFinset (l : List String) (a : String) :
    (tagInsert l a).toFinset = insert a l.toFinset := by
  ext x
  unfold tagInsert
  by_cases h : a ∈ l
  · simp [h]
  · simp [h, List.toFinset_append]
    tauto

/-- Folding tag insertion over a list realizes set union. -/
theorem foldl_tagInsert_toFinset (ts : List String) :
    ∀ l : List String,
      (ts.foldl tagInsert l).toFinset = l.toFinset ∪ ts.toFinset := by
  induction ts with
  | nil => intro l; simp
  | cons a ts ih =>
    intro l
    simp only [List.foldl_cons, List.toFinset_cons]
    rw [ih (tagInsert l a), tagInsert_toFinset]
    ext x
    simp

/-- Filtering out the listed tags realizes set difference. -/
theorem filter_not_mem_toFinset (l ts : List String) :
    (l.filter (fun t => decide (t ∉ ts))).toFinset =
      l.toFinset \ ts.toFinset := by
  ext x
  simp [List.mem_filter]

/-- Adding then removing the same tag list leaves the set difference of the
original tag set and the list. -/
theorem add_then_remove_toFinset (w : Workspace) (ts : List String) :
    ((w.add_tags ts).remove_tags ts).tags.toFinset =
      w.tags.toFinset \ ts.toFinset := by
  simp only [Workspace.add_tags, Workspace.remove_tags]
  rw [filter_not_mem_toFinset, foldl_tagInsert_toFinset]
  ext x
  simp
  tauto

/-- A keyed update is observed by a subsequent lookup of the same key,
provided the key was present. -/
theorem find_update_self (l : List (String × DockerSession)) (id : String)
    (d : DockerSession) (hl : (l.find? (fun p => p.1 = id)).isSome) :
    (l.map (fun p => if p.1 = id then (id, d) else p)).find?
        (fun p => p.1 = id) = some (id, d) := by
  induction l with
  | nil => simp at hl
  | cons p ps ih =>
    by_cases hp : p.1 = id
    · simp [List.find?, hp]
    · rw [List.map_cons, if_neg hp]
      rw [List.find?_cons_of_neg _ (by simp [hp])] at hl
      rw [List.find?_cons_of_neg _ (by simp [hp])]
      exact ih hl

/-- Updating a stored deployment and looking it up again returns the
updated deployment. -/
theorem deploy_mut_update (m : DeployManager) (id : String)
    (d sess : DockerSession) (h : m.deploy_mut id = .ok sess) :
    (m.update_deploy id d).deploy_mut id = .ok d := by
  unfold DeployManager.deploy_mut at h ⊢
  unfold DeployManager.update_deploy
  rcases hf : m.deploys.find? (fun p => p.1 = id) with _ | p
  · rw [hf] at h; cases h
  · rw [find_update_self m.deploys id d (by rw [hf]; rfl)]

/-- Counterexample for C9: on a session whose tag set is the singleton x,
AddTags [x] followed by DelTags [x] leaves the empty tag set, not the
original singleton, so the round trip law of the claim fails whenever the
added tags overlap the existing ones. -/
theorem tags_roundtrip_counterexample :
    ((run_command b0 (run_command b0 manX "s1"
            (Command.AddTags ["x"])).2.1 "s1"
          (Command.DelTags ["x"])).2.1.deploys.deploy_mut "s1").map
        (fun d => d.workspace.tags.toFinset) = .ok ∅ ∧
    (manX.deploys.deploy_mut "s1").map
        (fun d => d.workspace.tags.toFinset) = .ok {"x"} ∧
    (∅ : Finset String) ≠ {"x"} := by
  refine ⟨by decide, by decide, by decide⟩

/-- C9 amended: on an existing session (with the adapter initialized)
AddTags and DelTags always succeed and act as set union and set difference
on the workspace tag set; deleting an absent tag is not an error and
adding a present tag is a no-op on the set.  AddTags T followed by
DelTags T leaves the original tag set minus T, which equals the original
tag set exactly when T is disjoint from it (rather than unconditionally,
as the original round trip claim stated). -/
theorem tags_set_semantics (b : Backend) (man : DockerMan) (sid : String)
    (ts : List String) (sess : DockerSession)
    (hapi : man.docker_api = some ())
    (h : man.deploys.deploy_mut sid = .ok sess) :
    (run_command b man sid (Command.AddTags ts)).1 =
      .ok ("tags inserted. Current tags are: " ++
           renderTags (sess.workspace.add_tags ts).tags) ∧
    ((run_command b man sid (Command.AddTags ts)).2.1.deploys.deploy_mut
          sid).map (fun d => d.workspace.tags.toFinset) =
      .ok (sess.workspace.tags.toFinset ∪ ts.toFinset) ∧
    (run_command b man sid (Command.DelTags ts)).1 =
      .ok ("tags removed. Current tags are: " ++
           renderTags (sess.workspace.remove_tags ts).tags) ∧
    ((run_command b man sid (Command.DelTags ts)).2.1.deploys.deploy_mut
          sid).map (fun d => d.workspace.tags.toFinset) =
      .ok (sess.workspace.tags.toFinset \ ts.toFinset) ∧
    ((sess.workspace.add_tags ts).remove_tags ts).tags.toFinset =
      sess.workspace.tags.toFinset \ ts.toFinset ∧
    (Disjoint sess.workspace.tags.toFinset ts.toFinset →
      ((sess.workspace.add_tags ts).remove_tags ts).tags.toFinset =
        sess.workspace.tags.toFinset) := by
  have hadd : (run_command b man sid (Command.AddTags ts)).2.1.deploys =
      man.deploys.update_deploy sid
        ({ sess with workspace := sess.workspace.add_tags ts }) := by
    simp [run_command, hapi, h]
  have hdel : (run_command b man sid (Command.DelTags ts)).2.1.deploys =
      man.deploys.update_deploy sid
        ({ sess with workspace := sess.workspace.remove_tags ts }) := by
    simp [run_command, hapi, h]
  refine ⟨?_, ?_, ?_, ?_, ?_, ?_⟩
  · simp [run_command, hapi, h]
  · rw [hadd, deploy_mut_update man.deploys sid _ sess h]
    simp [Except.map, Workspace.add_tags, foldl_tagInsert_toFinset]
  · simp [run_command, hapi, h]
  · rw [hdel, deploy_mut_update man.deploys sid _ sess h]
    simp only [Except.map, Workspace.remove_tags]
    exact congrArg Except.ok (filter_not_mem_toFinset sess.workspace.tags ts)
  · exact add_then_remove_toFinset sess.workspace ts
  · intro hd
    rw [add_then_remove_toFinset]
    ext x
    simp only [Finset.mem_sdiff]
    exact ⟨fun hx => hx.1, fun hx => ⟨hx, Finset.disjoint_left.mp hd hx⟩⟩

/-- Witness for C9 amended: adding a fresh tag y on the sample tagged
session succeeds and the stored tag set becomes the union. -/
theorem tags_set_semantics_witness :
    (run_command b0 manX "s1" (Command.AddTags ["y"])).1 =
      .ok ("tags inserted. Current tags are: " ++
           renderTags (sessX.workspace.add_tags ["y"]).tags) ∧
    ((run_command b0 manX "s1" (Command.AddTags ["y"])).2.1.deploys.deploy_mut
          "s1").map (fun d => d.workspace.tags.toFinset) =
      .ok (sessX.workspace.tags.toFinset ∪ (["y"] : List String).toFinset) :=
  ⟨(tags_set_semantics b0 manX "s1" ["y"] sessX rfl (by decide)).1,
   (tags_set_semantics b0 manX "s1" ["y"] sessX rfl (by decide)).2.1⟩


/-- The volume fold of binds_and_workspace never touches the workspace name
or tag set. -/
theorem bindsStep_preserves (vols : List VolumeDef) :
    ∀ acc : List String × Workspace,
      (vols.foldl bindsStep acc).2.name = acc.2.name ∧
      (vols.foldl bindsStep acc).2.tags = acc.2.tags := by
  induction vols with
  | nil => intro acc; exact ⟨rfl, rfl⟩
  | cons v vs ih =>
    intro acc
    rw [List.foldl_cons]
    rcases hs : v.source_dir with _ | sd <;>
      rcases ht : v.target_dir with _ | td <;>
        simp [bindsStep, hs, ht, Workspace.add_volume, (ih _).1, (ih _).2]

/-- Appending a fresh keyed entry makes it the lookup result when the key
was absent before. -/
theorem find_append_single (l : List (String × DockerSession)) (id : String)
    (d : DockerSession) (hl : l.find? (fun p => p.1 = id) = none) :
    (l ++ [(id, d)]).find? (fun p => p.1 = id) = some (id, d) := by
  induction l with
  | nil => simp [List.find?]
  | cons p ps ih =>
    by_cases hp : p.1 = id
    · rw [List.find?_cons_of_pos _ (by simp [hp])] at hl
      cases hl
    · rw [List.find?_cons_of_neg _ (by simp [hp])] at hl
      rw [List.cons_append, List.find?_cons_of_neg _ (by simp [hp])]
      exact ih hl

/-- Inserting a deployment under an absent id makes it retrievable. -/
theorem deploy_mut_insert (m : DeployManager) (id : String)
    (d : DockerSession) (h : m.contains_deploy id = false) :
    (m.insert_deploy id d).deploy_mut id = .ok d := by
  have hnone : m.deploys.find? (fun p => p.1 = id) = none := by
    rw [List.find?_eq_none]
    intro p hp
    simp only [DeployManager.contains_deploy] at h
    have hnp := (List.any_eq_false.mp h) p hp
    simpa using hnp
  unfold DeployManager.insert_deploy
  simp only [h, Bool.false_eq_true, if_false]
  unfold DeployManager.deploy_mut
  rw [find_append_single m.deploys id d hnone]

/-- C10: the docker info projection always reports note none and the empty
process set; a successful creation replies with the container id and
stores a deployment whose projected info carries the freshly allocated
workspace name, the empty tag set and status CREATED; and the name, tags
and note fields of the creation request are ignored: changing them leaves
the handler result unchanged. -/
theorem docker_info_projection (man : DockerMan) (msg : CreateSession)
    (freshName cid name2 : String) (tags2 : List String)
    (note2 : Option String)
    (hapi : man.docker_api = some ())
    (hfresh : man.deploys.contains_deploy cid = false) :
    (∀ info ∈ man.deploys.deploys_info,
        info.note = none ∧ info.processes = []) ∧
    (DockerMan.handleCreateSession man msg freshName (.ok ()) (.ok cid)).1 =
      .ok cid ∧
    ((DockerMan.handleCreateSession man msg freshName (.ok ())
          (.ok cid)).2.deploys.deploy_mut cid).map
        (fun d => d.convert cid) =
      .ok { id := cid, name := freshName, status := .CREATED, tags := [],
            note := none, processes := [] } ∧
    DockerMan.handleCreateSession man
        { msg with name := name2, tags := tags2, note := note2 }
        freshName (.ok ()) (.ok cid) =
      DockerMan.handleCreateSession man msg freshName (.ok ()) (.ok cid) := by
  have hstate : (DockerMan.handleCreateSession man msg freshName (.ok ())
      (.ok cid)).2.deploys =
      man.deploys.insert_deploy cid
        ({ workspace := (binds_and_workspace
              (WorkspacesManager.workspace freshName) msg).2,
           containerId := cid, status := .CREATED }) := by
    simp [DockerMan.handleCreateSession, hapi]
  refine ⟨?_, ?_, ?_, ?_⟩
  · intro info hinfo
    simp only [DeployManager.deploys_info, List.mem_map] at hinfo
    obtain ⟨p, hp, rfl⟩ := hinfo
    exact ⟨rfl, rfl⟩
  · simp [DockerMan.handleCreateSession, hapi]
  · rw [hstate, deploy_mut_insert _ _ _ hfresh]
    have h1 : (binds_and_workspace
        (WorkspacesManager.workspace freshName) msg).2.name = freshName :=
      (bindsStep_preserves msg.options.volumes
        ([], WorkspacesManager.workspace freshName)).1
    have h2 : (binds_and_workspace
        (WorkspacesManager.workspace freshName) msg).2.tags = [] :=
      (bindsStep_preserves msg.options.volumes
        ([], WorkspacesManager.workspace freshName)).2
    simp only [Except.map, DockerSession.convert, h1, h2]
  · rfl

/-- Witness for C10: creating against the empty store with a request whose
name, tags and note fields are all set. -/
theorem docker_info_projection_witness :
    (DockerMan.handleCreateSession manEmpty msg0 "ws-1" (.ok ())
        (.ok "c9")).1 = .ok "c9" ∧
    ((DockerMan.handleCreateSession manEmpty msg0 "ws-1" (.ok ())
          (.ok "c9")).2.deploys.deploy_mut "c9").map
        (fun d => d.convert "c9") =
      .ok { id := "c9", name := "ws-1", status := .CREATED, tags := [],
            note := none, processes := [] } :=
  ⟨(docker_info_projection manEmpty msg0 "ws-1" "c9" "other" [] none rfl
      (by decide)).2.1,
   (docker_info_projection manEmpty msg0 "ws-1" "c9" "other" [] none rfl
      (by decide)).2.2.1⟩

end Dockerman
